import Mathlib

/-!
Verification of the GenAI diagnostic / model lister script
(check_google_credentials.py).

The script is embedded shallowly: each Python function becomes a Lean
definition over explicit inputs.  Side effects (logging) are modelled as
values returned by the functions: a run of the program produces a list of
executed steps, a list of log events and a result.  External collaborators
(the identity provider, the refresh transport and the model-catalog
client) are modelled as an oracle record whose fields give the outcome of
each external call; per the documented collaborator contract, the refresh
transport fails with RefreshError.
-/

/-- The process environment: a partial map from variable names to values,
mirroring os.getenv. -/
abbrev Env := String → Option String

/-- Python truthiness of an optional string: None and the empty string are
falsy. -/
def strTruthy : Option String → Bool
  | none => false
  | some s => !s.isEmpty

/-- Python `a or b` on optional strings: yields `a` when `a` is truthy,
otherwise `b`. -/
def pyOrStr (a b : Option String) : Option String :=
  match a with
  | some s => if s.isEmpty then b else some s
  | none => b

/-- A log record.  `info` models logger.info; `error` models logger.error
(withTrace = false) and logger.exception (withTrace = true). -/
inductive LogEvent where
  | info (msg : String)
  | error (msg : String) (withTrace : Bool)
  deriving Repr, DecidableEq

/-- Whether a log stream contains at least one error record. -/
def hasError (logs : List LogEvent) : Bool :=
  logs.any fun e =>
    match e with
    | LogEvent.info _ => false
    | LogEvent.error _ _ => true

/-- Forget whether an error record carried a traceback, keeping all
other content. -/
def eraseTraceFlag : LogEvent → LogEvent
  | LogEvent.info m => LogEvent.info m
  | LogEvent.error m _ => LogEvent.error m false

/-- A credential value as seen by describe_credentials: the outcomes of the
three isinstance tests performed by the source, plus the concrete type
name used in the fallback message. -/
structure Credential where
  isServiceAccount : Bool
  isOAuthUser : Bool
  isComputeEngine : Bool
  typeName : String
  deriving Repr, DecidableEq

/-- The four classification buckets of describe_credentials. -/
inductive CredKind where
  | serviceAccount
  | oauthUser
  | computeEngine
  | unknownKind
  deriving Repr, DecidableEq

/-- The bucket describe_credentials selects: the isinstance chain of
lines 43-51 of the source, in source order. -/
def classify (c : Credential) : CredKind :=
  if c.isServiceAccount then CredKind.serviceAccount
  else if c.isOAuthUser then CredKind.oauthUser
  else if c.isComputeEngine then CredKind.computeEngine
  else CredKind.unknownKind

/-- The message text the source attaches to each bucket; the unknown
bucket embeds the concrete type name. -/
def credMessage : CredKind → String → String
  | CredKind.serviceAccount, _ => "service-account key file"
  | CredKind.oauthUser, _ => "gcloud user (OAuth) credentials"
  | CredKind.computeEngine, _ => "Compute Engine / metadata-server credentials"
  | CredKind.unknownKind, n => "unknown credentials (" ++ n ++ ")"

/-- describe_credentials: the message logged for a credential, following
the isinstance chain of the source.  A total function: it never throws. -/
def describe_credentials (c : Credential) : String :=
  if c.isServiceAccount then "service-account key file"
  else if c.isOAuthUser then "gcloud user (OAuth) credentials"
  else if c.isComputeEngine then "Compute Engine / metadata-server credentials"
  else "unknown credentials (" ++ c.typeName ++ ")"

/-- A model descriptor returned by the catalog client.  Each of the two
historical capability fields is `none` when the attribute is absent
(getattr default None) and `some ms` when present with value `ms`. -/
structure ModelD where
  display_name : String
  name : String
  supported_generation_methods : Option (List String)
  generation_methods : Option (List String)
  deriving Repr, DecidableEq

/-- The capability value logged for a model: either an actual method list
or the placeholder. -/
inductive Capability where
  | methods (ms : List String)
  | placeholder
  deriving Repr, DecidableEq

/-- Python truthiness of a possibly-absent list attribute: absent (None)
and the empty list are falsy. -/
def listTruthy : Option (List String) → Bool
  | none => false
  | some ms => !ms.isEmpty

/-- The `or`-chain of line 68 of the source:
getattr(model, "supported_generation_methods", None)
or getattr(model, "generation_methods", None) or "?". -/
def capability (m : ModelD) : Capability :=
  if listTruthy m.supported_generation_methods then
    Capability.methods (m.supported_generation_methods.getD [])
  else if listTruthy m.generation_methods then
    Capability.methods (m.generation_methods.getD [])
  else Capability.placeholder

/-- Rendering of a capability value inside a log line. -/
def capabilityStr : Capability → String
  | Capability.methods ms => String.intercalate "," ms
  | Capability.placeholder => "?"

/-- The log lines produced by a successful list_models call: a header then
one line per model, in catalog order. -/
def list_models_logs (models : List ModelD) : List LogEvent :=
  LogEvent.info "Available models:" ::
    models.map (fun m =>
      LogEvent.info ("  - " ++ m.display_name ++ " (" ++ m.name ++ ") - methods="
        ++ capabilityStr (capability m)))

/-- dump_env_vars: the (name, value) pairs logged.  An empty `names`
argument models calling with zero arguments, in which case the fixed
five-variable set of lines 27-33 is used; an absent variable is logged
with the null marker (`none`).  A pure total function: no side effect
beyond the returned log content, and it never fails. -/
def dump_env_vars (names : List String) (env : Env) : List (String × Option String) :=
  let chosen :=
    if names.isEmpty then
      ["GOOGLE_GENAI_USE_VERTEXAI",
       "GOOGLE_CLOUD_PROJECT",
       "GOOGLE_CLOUD_LOCATION",
       "GOOGLE_APPLICATION_CREDENTIALS",
       "GOOGLE_API_KEY"]
    else names
  chosen.map (fun n => (n, env n))

/-- Rendering of an optional environment value in a dump log line. -/
def envValueStr : Option String → String
  | none => "None"
  | some s => s

/-- Which command-line flags were passed, before applying defaults.  A
`none` (or `false` for the store_true flags) means the flag was absent
from argv. -/
structure CLI where
  project : Option String
  location : Option String
  vertexaiFlag : Bool
  logLevel : Option String
  verboseErrorsFlag : Bool
  deriving Repr

/-- The parsed argument namespace produced by parse_args. -/
structure Args where
  project : Option String
  location : String
  vertexai : Bool
  log_level : String
  verbose_errors : Bool
  deriving Repr

/-- ASCII lowercasing, modelling Python str.lower on the values the
script compares against (all ASCII). -/
def lower (s : String) : String :=
  String.mk (s.data.map Char.toLower)

/-- Line 90 of the source: the default of the --vertexai flag is whether
the lowercased value of GOOGLE_GENAI_USE_VERTEXAI (taken as "true" when
unset) is one of "1", "true", "yes". -/
def default_vertexai (env : Env) : Bool :=
  decide ((lower ((env "GOOGLE_GENAI_USE_VERTEXAI").getD "true"))
    ∈ (["1", "true", "yes"] : List String))

/-- parse_args: applies the environment-aware defaults of lines 77-114.
--project defaults to GOOGLE_CLOUD_PROJECT, --location to
GOOGLE_CLOUD_LOCATION else "us-west2", --vertexai is store_true with
default default_vertexai, --log-level defaults to "INFO",
--verbose-errors is store_true with default false. -/
def parse_args (env : Env) (cli : CLI) : Args :=
  { project :=
      match cli.project with
      | some p => some p
      | none => env "GOOGLE_CLOUD_PROJECT"
  , location := cli.location.getD ((env "GOOGLE_CLOUD_LOCATION").getD "us-west2")
  , vertexai := cli.vertexaiFlag || default_vertexai env
  , log_level := cli.logLevel.getD "INFO"
  , verbose_errors := cli.verboseErrorsFlag }

/-- Outcome of creds.refresh(Request()).  Per the collaborator contract
documented for the identity provider, a failing refresh raises
RefreshError, which is exactly what line 134 of the source catches. -/
inductive RefreshOutcome where
  | ok
  | refreshError (msg : String)
  deriving Repr, DecidableEq

/-- Outcome of the list_models call against the live catalog: either the
model sequence, or an exception raised by the client (caught broadly by
line 144 of the source). -/
inductive ListOutcome where
  | ok (models : List ModelD)
  | raises (msg : String)
  deriving Repr, DecidableEq

/-- The oracle for one run: the process environment and the outcome of
each external call. `adc = none` models google.auth.default() itself
raising (which main does not catch). -/
structure World where
  env : Env
  adc : Option (Credential × Option String)
  refresh : RefreshOutcome
  listing : ListOutcome

/-- The operations main performs, in the order the source performs
them. -/
inductive Step where
  | resolveCreds
  | classifyCreds
  | resolveContext
  | dumpConfig
  | refreshCreds
  | listModelsStep
  deriving Repr, DecidableEq

/-- What a run of main produced: the steps executed, the log stream, and
either a return value or an uncaught exception. -/
structure RunResult where
  steps : List Step
  logs : List LogEvent
  result : Except String Int
  deriving Repr

/-- The log records of a refresh attempt: nothing on success; on
RefreshError one error record, with a traceback exactly when
--verbose-errors was set (logger.exception vs logger.error,
lines 134-138). -/
def refreshLogs (args : Args) : RefreshOutcome → List LogEvent
  | RefreshOutcome.ok => []
  | RefreshOutcome.refreshError m =>
      [LogEvent.error ("Failed to refresh credentials: " ++ m) args.verbose_errors]

/-- The log records of the guarded list_models call of lines 142-150:
the model lines on success, one error record on any exception, with a
traceback exactly when --verbose-errors was set. -/
def listingLogs (args : Args) : ListOutcome → List LogEvent
  | ListOutcome.ok models => list_models_logs models
  | ListOutcome.raises m =>
      [LogEvent.error ("Unexpected error while listing models: " ++ m) args.verbose_errors]

/-- The body of main after argument parsing (lines 121-152): resolve
credentials, classify, resolve the project, then either degrade softly
when no project could be determined, or dump the environment, refresh
(best-effort) and list models (best-effort), returning 0. -/
def run (args : Args) (w : World) : RunResult :=
  match w.adc with
  | none =>
      { steps := [], logs := [], result := Except.error "DefaultCredentialsError" }
  | some (creds, adc_project) =>
      let classifyLog := LogEvent.info ("Using " ++ describe_credentials creds)
      let project := pyOrStr args.project adc_project
      if strTruthy project then
        let dumpLog :=
          LogEvent.info "Environment variables:" ::
            (dump_env_vars [] w.env).map (fun p =>
              LogEvent.info ("  " ++ p.1 ++ " = " ++ envValueStr p.2))
        { steps := [Step.resolveCreds, Step.classifyCreds, Step.resolveContext,
                    Step.dumpConfig, Step.refreshCreds, Step.listModelsStep]
        , logs := classifyLog :: dumpLog ++ refreshLogs args w.refresh
                    ++ listingLogs args w.listing
        , result := Except.ok 0 }
      else
        { steps := [Step.resolveCreds, Step.classifyCreds, Step.resolveContext]
        , logs := [classifyLog,
                   LogEvent.error
                     "No project could be determined. Provide --project or set GOOGLE_CLOUD_PROJECT."
                     false]
        , result := Except.ok 0 }

namespace Script

/-- main: parse the arguments against the process environment, then run
the body. -/
def main (cli : CLI) (w : World) : RunResult :=
  run (parse_args w.env cli) w

end Script

/-! ### Concrete instances used in counterexamples and witnesses -/

/-- An environment with no variables set. -/
def envEmpty : Env := fun _ => none

/-- An environment where only GOOGLE_CLOUD_PROJECT is set, to "demo". -/
def envDemo : Env := fun n => if n = "GOOGLE_CLOUD_PROJECT" then some "demo" else none

/-- A service-account credential instance. -/
def credsSA : Credential :=
  { isServiceAccount := true, isOAuthUser := false, isComputeEngine := false
  , typeName := "Credentials" }

/-- A credential matching none of the three known shapes. -/
def credsOther : Credential :=
  { isServiceAccount := false, isOAuthUser := false, isComputeEngine := false
  , typeName := "ImpersonatedCredentials" }

/-- A command line with no flags passed. -/
def cliNone : CLI :=
  { project := none, location := none, vertexaiFlag := false
  , logLevel := none, verboseErrorsFlag := false }

/-- A descriptor exposing only supported_generation_methods, with a falsy
(empty) value. -/
def mFalsyA : ModelD :=
  { display_name := "m", name := "models/m"
  , supported_generation_methods := some [], generation_methods := none }

/-- A descriptor exposing only supported_generation_methods, truthy. -/
def mOnlyA : ModelD :=
  { display_name := "a", name := "models/a"
  , supported_generation_methods := some ["generateContent"]
  , generation_methods := none }

/-- A descriptor exposing a falsy first field and a truthy second field. -/
def mFalsyAB : ModelD :=
  { display_name := "b", name := "models/b"
  , supported_generation_methods := some []
  , generation_methods := some ["countTokens"] }

/-! ### Claims about the pure helpers -/

/-- Claim C1: describe_credentials assigns every credential value exactly
one of the four kinds, testing service-account first, then user OAuth,
then compute-engine metadata, else unknown; a value matching none of the
three shapes gets the unknown label carrying the concrete type name; the
function is total (never throws). -/
theorem claim1_classification (c : Credential) :
    ((classify c = CredKind.serviceAccount) ↔ c.isServiceAccount = true) ∧
    ((classify c = CredKind.oauthUser) ↔
      (c.isServiceAccount = false ∧ c.isOAuthUser = true)) ∧
    ((classify c = CredKind.computeEngine) ↔
      (c.isServiceAccount = false ∧ c.isOAuthUser = false ∧ c.isComputeEngine = true)) ∧
    ((classify c = CredKind.unknownKind) ↔
      (c.isServiceAccount = false ∧ c.isOAuthUser = false ∧ c.isComputeEngine = false)) ∧
    describe_credentials c = credMessage (classify c) c.typeName := by
  cases h1 : c.isServiceAccount <;> cases h2 : c.isOAuthUser <;>
    cases h3 : c.isComputeEngine <;>
      simp [classify, describe_credentials, credMessage, h1, h2, h3]

/-- Instantiation of claim C1 at a concrete unknown-shaped credential. -/
theorem claim1_classification_witness :
    classify credsOther = CredKind.unknownKind ∧
    describe_credentials credsOther = "unknown credentials (ImpersonatedCredentials)" :=
  ⟨((claim1_classification credsOther).2.2.2.1).mpr (by decide),
    (claim1_classification credsOther).2.2.2.2⟩

/-- Claim C6 counterexample: a descriptor exposing only
supported_generation_methods, with the empty list as its value.  The
claim says the logged capability value is that field's value (the empty
list); the code logs the placeholder instead, because the Python or-chain
treats the empty list as falsy. -/
theorem claim6_counterexample :
    mFalsyA.supported_generation_methods = some [] ∧
    mFalsyA.generation_methods = none ∧
    capability mFalsyA ≠ Capability.methods [] ∧
    capability mFalsyA = Capability.placeholder :=
  ⟨rfl, rfl, by decide, rfl⟩

/-- Claim C6 (amended): the logged capability value is the value of
supported_generation_methods when that field is present with a truthy
(non-empty) value; otherwise the value of generation_methods when that
field is present with a truthy value; otherwise the placeholder. -/
theorem claim6_capability (m : ModelD) :
    (∀ ms, m.supported_generation_methods = some ms → ms ≠ [] →
      capability m = Capability.methods ms) ∧
    (listTruthy m.supported_generation_methods = false →
      ∀ ms, m.generation_methods = some ms → ms ≠ [] →
        capability m = Capability.methods ms) ∧
    (listTruthy m.supported_generation_methods = false →
      listTruthy m.generation_methods = false →
        capability m = Capability.placeholder) := by
  refine ⟨?_, ?_, ?_⟩
  · intro ms h hne
    have hAt : listTruthy m.supported_generation_methods = true := by
      rw [h]
      cases ms with
      | nil => exact absurd rfl hne
      | cons a t => rfl
    have hval : m.supported_generation_methods.getD [] = ms := by
      rw [h]
      rfl
    unfold capability
    rw [hAt, hval]
    simp
  · intro hA ms hB hne
    have hBt : listTruthy m.generation_methods = true := by
      rw [hB]
      cases ms with
      | nil => exact absurd rfl hne
      | cons a t => rfl
    have hval : m.generation_methods.getD [] = ms := by
      rw [hB]
      rfl
    unfold capability
    rw [hA, hBt, hval]
    simp
  · intro hA hB
    unfold capability
    rw [hA, hB]
    simp

/-- Instantiation of claim C6 (amended) at concrete descriptors. -/
theorem claim6_capability_witness :
    capability mOnlyA = Capability.methods ["generateContent"] ∧
    capability mFalsyAB = Capability.methods ["countTokens"] :=
  ⟨(claim6_capability mOnlyA).1 ["generateContent"] rfl (by decide),
    (claim6_capability mFalsyAB).2.1 rfl ["countTokens"] rfl (by decide)⟩

/-- Claim C9: a falsy (for example empty-list) value of
supported_generation_methods is never logged: the lookup falls through to
generation_methods when that is truthy, and to the placeholder
otherwise. -/
theorem claim9_falsy_fallthrough (m : ModelD)
    (h : m.supported_generation_methods = some []) :
    capability m ≠ Capability.methods [] ∧
    (∀ ms, m.generation_methods = some ms → ms ≠ [] →
      capability m = Capability.methods ms) ∧
    (listTruthy m.generation_methods = false →
      capability m = Capability.placeholder) := by
  have hA : listTruthy m.supported_generation_methods = false := by
    rw [h]
    rfl
  refine ⟨?_, ?_, ?_⟩
  · cases hB : m.generation_methods with
    | none =>
      have hBt : listTruthy m.generation_methods = false := by
        rw [hB]
        rfl
      unfold capability
      rw [hA, hBt]
      simp
    | some ms =>
      cases ms with
      | nil =>
        have hBt : listTruthy m.generation_methods = false := by
          rw [hB]
          rfl
        unfold capability
        rw [hA, hBt]
        simp
      | cons a t =>
        have hBt : listTruthy m.generation_methods = true := by
          rw [hB]
          rfl
        have hval : m.generation_methods.getD [] = a :: t := by
          rw [hB]
          rfl
        unfold capability
        rw [hA, hBt, hval]
        simp
  · intro ms hB hne
    have hBt : listTruthy m.generation_methods = true := by
      rw [hB]
      cases ms with
      | nil => exact absurd rfl hne
      | cons a t => rfl
    have hval : m.generation_methods.getD [] = ms := by
      rw [hB]
      rfl
    unfold capability
    rw [hA, hBt, hval]
    simp
  · intro hB
    unfold capability
    rw [hA, hB]
    simp

/-- Instantiation of claim C9 at a concrete descriptor whose first field
is the empty list and whose second field is truthy. -/
theorem claim9_falsy_fallthrough_witness :
    capability mFalsyAB = Capability.methods ["countTokens"] ∧
    capability mFalsyA = Capability.placeholder :=
  ⟨(claim9_falsy_fallthrough mFalsyAB rfl).2.1 ["countTokens"] rfl (by decide),
    (claim9_falsy_fallthrough mFalsyA rfl).2.2 rfl⟩

/-- Claim C7: with zero arguments dump_env_vars logs exactly the fixed
five-variable set in source order; with explicit names it logs exactly
those names; an absent variable is logged with the null marker; the
function is pure and total (no side effect beyond the returned log
content, never fails). -/
theorem claim7_dump_env_vars (env : Env) (names : List String) :
    dump_env_vars [] env =
      [("GOOGLE_GENAI_USE_VERTEXAI", env "GOOGLE_GENAI_USE_VERTEXAI"),
       ("GOOGLE_CLOUD_PROJECT", env "GOOGLE_CLOUD_PROJECT"),
       ("GOOGLE_CLOUD_LOCATION", env "GOOGLE_CLOUD_LOCATION"),
       ("GOOGLE_APPLICATION_CREDENTIALS", env "GOOGLE_APPLICATION_CREDENTIALS"),
       ("GOOGLE_API_KEY", env "GOOGLE_API_KEY")] ∧
    (names ≠ [] → dump_env_vars names env = names.map (fun n => (n, env n))) ∧
    (∀ n, n ∈ names → env n = none → (n, none) ∈ dump_env_vars names env) := by
  refine ⟨rfl, ?_, ?_⟩
  · intro hne
    cases names with
    | nil => exact absurd rfl hne
    | cons a t => rfl
  · intro n hn he
    cases names with
    | nil => exact absurd hn (List.not_mem_nil n)
    | cons a t =>
      show (n, none) ∈ (a :: t).map (fun x => (x, env x))
      exact List.mem_map.mpr ⟨n, hn, by rw [he]⟩

/-- Instantiation of claim C7 at concrete argument lists and
environments. -/
theorem claim7_dump_env_vars_witness :
    dump_env_vars ["HOME"] envEmpty = [("HOME", none)] ∧
    dump_env_vars [] envDemo =
      [("GOOGLE_GENAI_USE_VERTEXAI", none),
       ("GOOGLE_CLOUD_PROJECT", some "demo"),
       ("GOOGLE_CLOUD_LOCATION", none),
       ("GOOGLE_APPLICATION_CREDENTIALS", none),
       ("GOOGLE_API_KEY", none)] :=
  ⟨by
    rw [(claim7_dump_env_vars envEmpty ["HOME"]).2.1 (by decide)]
    rfl,
   by
    rw [(claim7_dump_env_vars envDemo []).1]
    rfl⟩

/-- Claim C10: --vertexai is a store_true flag whose default is true
exactly when the lowercased GOOGLE_GENAI_USE_VERTEXAI value (taken as
"true" when unset) is "1", "true" or "yes"; passing the flag can only
turn the value on, so when the environment default resolves to true no
command line can select the direct-API backend. -/
theorem claim10_vertexai_flag (env : Env) (cli : CLI) :
    (parse_args env cli).vertexai = (cli.vertexaiFlag || default_vertexai env) ∧
    (default_vertexai env = true ↔
      (lower ((env "GOOGLE_GENAI_USE_VERTEXAI").getD "true") = "1" ∨
       lower ((env "GOOGLE_GENAI_USE_VERTEXAI").getD "true") = "true" ∨
       lower ((env "GOOGLE_GENAI_USE_VERTEXAI").getD "true") = "yes")) ∧
    (env "GOOGLE_GENAI_USE_VERTEXAI" = none → default_vertexai env = true) ∧
    (default_vertexai env = true → (parse_args env cli).vertexai = true) := by
  refine ⟨rfl, ?_, ?_, ?_⟩
  · unfold default_vertexai
    simp
  · intro h
    unfold default_vertexai
    rw [h]
    decide
  · intro h
    show (cli.vertexaiFlag || default_vertexai env) = true
    rw [h]
    exact Bool.or_true _

/-- Instantiation of claim C10: with GOOGLE_GENAI_USE_VERTEXAI unset the
default is true, hence every command line yields vertexai = true. -/
theorem claim10_vertexai_flag_witness :
    default_vertexai envEmpty = true ∧
    (parse_args envEmpty cliNone).vertexai = true :=
  ⟨(claim10_vertexai_flag envEmpty cliNone).2.2.1 rfl,
   (claim10_vertexai_flag envEmpty cliNone).2.2.2
     ((claim10_vertexai_flag envEmpty cliNone).2.2.1 rfl)⟩

/-! ### Concrete worlds used in witnesses and counterexamples -/

/-- A run where everything succeeds: ADC resolves with an inferred
project, refresh succeeds, the catalog returns one model. -/
def worldOk : World :=
  { env := envEmpty, adc := some (credsSA, some "proj")
  , refresh := RefreshOutcome.ok, listing := ListOutcome.ok [mOnlyA] }

/-- A run where the flag default supplies the project via
GOOGLE_CLOUD_PROJECT while ADC infers none. -/
def worldEnvProj : World :=
  { env := envDemo, adc := some (credsSA, none)
  , refresh := RefreshOutcome.ok, listing := ListOutcome.ok [] }

/-- A run with no project from any source. -/
def worldNoProj : World :=
  { env := envEmpty, adc := some (credsOther, none)
  , refresh := RefreshOutcome.ok, listing := ListOutcome.ok [] }

/-- A run whose model-listing call raises. -/
def worldListErr : World :=
  { env := envDemo, adc := some (credsSA, none)
  , refresh := RefreshOutcome.ok, listing := ListOutcome.raises "PermissionDenied" }

/-- A run whose credential refresh raises RefreshError. -/
def worldRefreshErr : World :=
  { env := envDemo, adc := some (credsSA, none)
  , refresh := RefreshOutcome.refreshError "invalid_grant"
  , listing := ListOutcome.ok [] }

/-! ### Claims about main -/

/-- Claim C2: whenever argument parsing and initial credential resolution
succeed, main performs resolve credentials, classify, resolve context,
dump config, refresh, list models in that fixed order (stopping after
resolve context only on the soft-degrade path) and returns 0; every
handled-and-logged failure path still returns 0. -/
theorem claim2_sequential_exit_zero (cli : CLI) (w : World) (c : Credential)
    (p : Option String) (hadc : w.adc = some (c, p)) :
    (Script.main cli w).result = Except.ok 0 ∧
    ((Script.main cli w).steps =
        [Step.resolveCreds, Step.classifyCreds, Step.resolveContext] ∨
      (Script.main cli w).steps =
        [Step.resolveCreds, Step.classifyCreds, Step.resolveContext,
         Step.dumpConfig, Step.refreshCreds, Step.listModelsStep]) ∧
    (strTruthy (pyOrStr (parse_args w.env cli).project p) = true →
      (Script.main cli w).steps =
        [Step.resolveCreds, Step.classifyCreds, Step.resolveContext,
         Step.dumpConfig, Step.refreshCreds, Step.listModelsStep]) := by
  unfold Script.main run
  rw [hadc]
  by_cases hp : strTruthy (pyOrStr (parse_args w.env cli).project p) = true
  · simp [hp]
  · simp [hp]

/-- Instantiation of claim C2 at a fully successful concrete run. -/
theorem claim2_sequential_exit_zero_witness :
    (Script.main cliNone worldOk).result = Except.ok 0 ∧
    (Script.main cliNone worldOk).steps =
      [Step.resolveCreds, Step.classifyCreds, Step.resolveContext,
       Step.dumpConfig, Step.refreshCreds, Step.listModelsStep] :=
  ⟨(claim2_sequential_exit_zero cliNone worldOk credsSA (some "proj") rfl).1,
   (claim2_sequential_exit_zero cliNone worldOk credsSA (some "proj") rfl).2.2
     (by decide)⟩

/-- Claim C3 counterexample: no --project flag is passed and credential
resolution infers no project, yet GOOGLE_CLOUD_PROJECT supplies a project
through the flag default, so main does not take the early-return path:
the model-listing step runs and no error is logged. -/
theorem claim3_counterexample :
    cliNone.project = none ∧
    worldEnvProj.adc = some (credsSA, none) ∧
    Step.listModelsStep ∈ (Script.main cliNone worldEnvProj).steps ∧
    hasError (Script.main cliNone worldEnvProj).logs = false ∧
    (Script.main cliNone worldEnvProj).result = Except.ok 0 :=
  ⟨rfl, rfl, by decide, by decide, rfl⟩

/-- Claim C3 (amended): if the parsed --project value (the flag,
defaulting to GOOGLE_CLOUD_PROJECT) is unset or empty and no project was
inferred during credential resolution, main logs an error and returns 0
without raising, stopping before the model-listing step. -/
theorem claim3_soft_degrade (cli : CLI) (w : World) (c : Credential)
    (p : Option String) (hadc : w.adc = some (c, p))
    (hflag : strTruthy (parse_args w.env cli).project = false)
    (hinfer : strTruthy p = false) :
    (Script.main cli w).result = Except.ok 0 ∧
    hasError (Script.main cli w).logs = true ∧
    (Script.main cli w).steps =
      [Step.resolveCreds, Step.classifyCreds, Step.resolveContext] ∧
    Step.listModelsStep ∉ (Script.main cli w).steps := by
  have hp : strTruthy (pyOrStr (parse_args w.env cli).project p) = false := by
    cases hq : (parse_args w.env cli).project with
    | none => simpa [pyOrStr] using hinfer
    | some s =>
      rw [hq] at hflag
      have hse : s.isEmpty = true := by
        simpa [strTruthy] using hflag
      simp [pyOrStr, hse, hinfer]
  unfold Script.main run
  rw [hadc]
  simp [hp, hasError]

/-- Instantiation of claim C3 (amended) at a concrete run with no project
from any source. -/
theorem claim3_soft_degrade_witness :
    (Script.main cliNone worldNoProj).result = Except.ok 0 ∧
    hasError (Script.main cliNone worldNoProj).logs = true ∧
    Step.listModelsStep ∉ (Script.main cliNone worldNoProj).steps := by
  have h := claim3_soft_degrade cliNone worldNoProj credsOther none rfl
    (by decide) (by decide)
  exact ⟨h.1, h.2.1, h.2.2.2⟩

/-- Claim C4: any exception raised by the model-listing step is caught,
logged with the traceback exactly when --verbose-errors was set, and main
still returns 0. -/
theorem claim4_listing_error_swallowed (cli : CLI) (w : World) (c : Credential)
    (p : Option String) (msg : String) (hadc : w.adc = some (c, p))
    (hp : strTruthy (pyOrStr (parse_args w.env cli).project p) = true)
    (hlist : w.listing = ListOutcome.raises msg) :
    (Script.main cli w).result = Except.ok 0 ∧
    LogEvent.error ("Unexpected error while listing models: " ++ msg)
        (parse_args w.env cli).verbose_errors ∈ (Script.main cli w).logs := by
  unfold Script.main run
  rw [hadc]
  simp [hp, hlist, listingLogs]

/-- Instantiation of claim C4 at a concrete run whose catalog call
raises. -/
theorem claim4_listing_error_swallowed_witness :
    (Script.main cliNone worldListErr).result = Except.ok 0 ∧
    LogEvent.error "Unexpected error while listing models: PermissionDenied" false
      ∈ (Script.main cliNone worldListErr).logs := by
  have h := claim4_listing_error_swallowed cliNone worldListErr credsSA none
    "PermissionDenied" rfl (by decide) rfl
  exact ⟨h.1, h.2⟩

/-- Claim C5: a RefreshError during credential refresh is caught and
logged and execution still reaches the model-listing step (the full step
sequence runs) with main returning 0. -/
theorem claim5_refresh_error_recoverable (cli : CLI) (w : World) (c : Credential)
    (p : Option String) (msg : String) (hadc : w.adc = some (c, p))
    (hp : strTruthy (pyOrStr (parse_args w.env cli).project p) = true)
    (href : w.refresh = RefreshOutcome.refreshError msg) :
    (Script.main cli w).result = Except.ok 0 ∧
    LogEvent.error ("Failed to refresh credentials: " ++ msg)
        (parse_args w.env cli).verbose_errors ∈ (Script.main cli w).logs ∧
    (Script.main cli w).steps =
      [Step.resolveCreds, Step.classifyCreds, Step.resolveContext,
       Step.dumpConfig, Step.refreshCreds, Step.listModelsStep] := by
  unfold Script.main run
  rw [hadc]
  simp [hp, href, refreshLogs]

/-- Instantiation of claim C5 at a concrete run whose refresh raises
RefreshError. -/
theorem claim5_refresh_error_recoverable_witness :
    (Script.main cliNone worldRefreshErr).result = Except.ok 0 ∧
    Step.listModelsStep ∈ (Script.main cliNone worldRefreshErr).steps := by
  have h := claim5_refresh_error_recoverable cliNone worldRefreshErr credsSA none
    "invalid_grant" rfl (by decide) rfl
  refine ⟨h.1, ?_⟩
  rw [h.2.2]
  decide

/-- Changing only the verbose flag leaves refresh logs identical up to
the traceback marker. -/
theorem refreshLogs_erase (a : Args) (b : Bool) (r : RefreshOutcome) :
    (refreshLogs { a with verbose_errors := b } r).map eraseTraceFlag
      = (refreshLogs a r).map eraseTraceFlag := by
  cases r <;> simp [refreshLogs, eraseTraceFlag]

/-- Changing only the verbose flag leaves listing logs identical up to
the traceback marker. -/
theorem listingLogs_erase (a : Args) (b : Bool) (l : ListOutcome) :
    (listingLogs { a with verbose_errors := b } l).map eraseTraceFlag
      = (listingLogs a l).map eraseTraceFlag := by
  cases l <;> simp [listingLogs, eraseTraceFlag]

/-- The body of main is insensitive to the verbose flag except for the
traceback marker on error logs. -/
theorem run_verbose_invariant (a : Args) (b1 b2 : Bool) (w : World) :
    (run { a with verbose_errors := b1 } w).result
      = (run { a with verbose_errors := b2 } w).result ∧
    (run { a with verbose_errors := b1 } w).steps
      = (run { a with verbose_errors := b2 } w).steps ∧
    (run { a with verbose_errors := b1 } w).logs.map eraseTraceFlag
      = (run { a with verbose_errors := b2 } w).logs.map eraseTraceFlag := by
  unfold run
  cases w.adc with
  | none => exact ⟨rfl, rfl, rfl⟩
  | some cp =>
    obtain ⟨c, p⟩ := cp
    by_cases hp : strTruthy (pyOrStr a.project p) = true
    · simp only [hp]
      refine ⟨rfl, rfl, ?_⟩
      simp [List.map_append, refreshLogs_erase, listingLogs_erase]
    · simp only [hp]
      simp

/-- Claim C8: two runs of main on the same inputs and environment that
differ only in --verbose-errors have the same return value, the same
operation sequence, and log streams identical up to the traceback marker
on error records. -/
theorem claim8_verbose_noninterference (cli : CLI) (w : World) (b1 b2 : Bool) :
    (Script.main { cli with verboseErrorsFlag := b1 } w).result
      = (Script.main { cli with verboseErrorsFlag := b2 } w).result ∧
    (Script.main { cli with verboseErrorsFlag := b1 } w).steps
      = (Script.main { cli with verboseErrorsFlag := b2 } w).steps ∧
    (Script.main { cli with verboseErrorsFlag := b1 } w).logs.map eraseTraceFlag
      = (Script.main { cli with verboseErrorsFlag := b2 } w).logs.map eraseTraceFlag := by
  have hargs : ∀ b : Bool, parse_args w.env { cli with verboseErrorsFlag := b }
      = { parse_args w.env cli with verbose_errors := b } := fun b => rfl
  unfold Script.main
  rw [hargs b1, hargs b2]
  exact run_verbose_invariant (parse_args w.env cli) b1 b2 w

/-- Instantiation of claim C8 at a concrete run whose listing raises, the
case where the flag actually reaches a logging decision. -/
theorem claim8_verbose_noninterference_witness :
    (Script.main { cliNone with verboseErrorsFlag := true } worldListErr).result
      = (Script.main { cliNone with verboseErrorsFlag := false } worldListErr).result ∧
    (Script.main { cliNone with verboseErrorsFlag := true } worldListErr).steps
      = (Script.main { cliNone with verboseErrorsFlag := false } worldListErr).steps :=
  ⟨(claim8_verbose_noninterference cliNone worldListErr true false).1,
   (claim8_verbose_noninterference cliNone worldListErr true false).2.1⟩
